import Mathlib

/-!
Verification of the data-filtering and metric-derivation core of the
Global CO₂ dashboard (`src/Lab7_Homework.py`).

The dashboard logic reads only the `country`, `year` and `co2` columns of
each dataset row, so the embedding models an `Observation` by those three
fields.  `co2` values are modelled as rationals (the source uses pandas
floats only for arithmetic that is exact on the inputs considered here).
A pandas `DataFrame` of observations is modelled as a `List Row`, which
preserves the row order the source relies on.
-/

/-- One row (`Observation`) of the OWID CO₂ dataset, restricted to the
columns the dashboard logic reads: `country`, `year`, `co2`. -/
structure Row where
  country : String
  year : Int
  co2 : ℚ
deriving DecidableEq, Repr

/-- The `filtered_data` computation of `src/Lab7_Homework.py` lines 81-101:
if the selected entity is the custom `"Global"` aggregation token, keep the
rows of the `"World"` entity inside the inclusive year interval; otherwise
keep the rows of the selected entity inside the interval.  Both branches
are plain pandas boolean-mask filters; no sort is applied. -/
def filtered_data (data : List Row) (selected_country : String)
    (start_year end_year : Int) : List Row :=
  if selected_country == "Global" then
    data.filter (fun r => r.country == "World"
      && decide (start_year ≤ r.year) && decide (r.year ≤ end_year))
  else
    data.filter (fun r => r.country == selected_country
      && decide (start_year ≤ r.year) && decide (r.year ≤ end_year))

/-- Claim C1: for every dataset and selection, `filtered_data` returns
exactly the rows whose entity is `"World"` when the aggregation token
`"Global"` is selected (otherwise the selected entity), and whose year
lies in the inclusive interval; when no row matches the result is the
empty list, not an error. -/
theorem filtered_data_spec (data : List Row) (sel : String) (sy ey : Int) :
    (∀ r : Row, r ∈ filtered_data data sel sy ey ↔
        r ∈ data ∧ r.country = (if sel = "Global" then "World" else sel)
          ∧ sy ≤ r.year ∧ r.year ≤ ey)
    ∧ ((∀ r ∈ data,
          ¬(r.country = (if sel = "Global" then "World" else sel)
            ∧ sy ≤ r.year ∧ r.year ≤ ey)) →
        filtered_data data sel sy ey = []) := by
  constructor
  · intro r
    unfold filtered_data
    by_cases h : sel = "Global" <;>
      simp [h, List.mem_filter, and_assoc]
  · intro hnone
    unfold filtered_data
    by_cases h : sel = "Global" <;>
      simp only [h, beq_iff_eq, if_true, if_false] <;>
      simp only [List.filter_eq_nil_iff] <;>
      intro r hr <;>
      have := hnone r hr <;>
      by_cases h1 : r.country = (if sel = "Global" then "World" else sel) <;>
      simp_all [and_assoc]

/-- Witness for claim C1 at a concrete dataset: the single `"World"` row is
kept under the aggregation token, and an unknown entity yields `[]`. -/
theorem filtered_data_spec_witness :
    (⟨"World", 2000, 1⟩ : Row) ∈ filtered_data [⟨"World", 2000, 1⟩] "Global" 2000 2000
    ∧ filtered_data [⟨"World", 2000, 1⟩] "Nowhere" 2000 2000 = [] := by
  refine ⟨((filtered_data_spec [⟨"World", 2000, 1⟩] "Global" 2000 2000).1 _).mpr ?_,
    (filtered_data_spec [⟨"World", 2000, 1⟩] "Nowhere" 2000 2000).2 ?_⟩
  · refine ⟨by simp, by decide, by decide, by decide⟩
  · intro r hr
    simp only [List.mem_singleton] at hr
    subst hr
    decide

/-- The fixed aggregate-entity exclusion list of lines 92 and 106. -/
def aggregate_entities : List String :=
  ["World", "International Transport", "Oceania", "Asia", "Europe", "Africa"]

/-- The descending-by-co2 ordering used by `sort_values(by=co2, ascending=False)`. -/
def co2Desc (a b : Row) : Prop := b.co2 ≤ a.co2

instance : DecidableRel co2Desc := fun a b => inferInstanceAs (Decidable (b.co2 ≤ a.co2))

instance : IsTotal Row co2Desc := ⟨fun a b => le_total b.co2 a.co2⟩

instance : IsTrans Row co2Desc := ⟨fun _ _ _ h1 h2 => le_trans h2 h1⟩

/-- Qualification test of the ranking filter: `year == end_year` and the
entity is not one of the excluded aggregates. -/
def ranking_pred (end_year : Int) (r : Row) : Bool :=
  decide (r.year = end_year) && !(aggregate_entities.contains r.country)

/-- The `country_ranking_data` computation of lines 90-93 (and identically
104-107): filter to the end year excluding aggregates, sort descending by
co2, take the first 10. -/
def country_ranking_data (data : List Row) (end_year : Int) : List Row :=
  (List.insertionSort co2Desc (data.filter (ranking_pred end_year))).take 10

/-- The top-level branch of lines 81-107: the `"Global"` branch and the
specific-entity branch each spell out the same ranking expression. -/
def country_ranking_branch (data : List Row) (selected_country : String)
    (end_year : Int) : List Row :=
  if selected_country == "Global" then
    (List.insertionSort co2Desc (data.filter (ranking_pred end_year))).take 10
  else
    (List.insertionSort co2Desc (data.filter (ranking_pred end_year))).take 10

/-- Claim C2: the ranking consists only of rows with `year = end_year`
whose entity is outside the exclusion set, has length at most 10, is
sorted descending by co2, and when fewer than 10 rows qualify it is a
permutation of all qualifying rows (no padding, no error). -/
theorem country_ranking_data_spec (data : List Row) (ey : Int) :
    (∀ r ∈ country_ranking_data data ey, r.year = ey ∧ r.country ∉ aggregate_entities)
    ∧ (country_ranking_data data ey).length ≤ 10
    ∧ (country_ranking_data data ey).Sorted co2Desc
    ∧ ((data.filter (ranking_pred ey)).length < 10 →
        (country_ranking_data data ey).Perm (data.filter (ranking_pred ey))) := by
  refine ⟨?_, ?_, ?_, ?_⟩
  · intro r hr
    have hr' : r ∈ List.insertionSort co2Desc (data.filter (ranking_pred ey)) :=
      (List.take_sublist 10 _).subset hr
    rw [List.mem_insertionSort] at hr'
    have hq := (List.mem_filter.mp hr').2
    simp only [ranking_pred, Bool.and_eq_true, decide_eq_true_eq] at hq
    exact ⟨hq.1, by simpa using hq.2⟩
  · exact List.length_take_le 10 _
  · exact List.Pairwise.sublist (List.take_sublist 10 _)
      (List.sorted_insertionSort co2Desc _)
  · intro hlen
    unfold country_ranking_data
    rw [List.take_of_length_le]
    · exact List.perm_insertionSort co2Desc _
    · rw [List.length_insertionSort]
      omega

/-- Witness for claim C2 at a concrete dataset with two qualifying rows
and one excluded aggregate row: all qualifying rows are returned. -/
theorem country_ranking_data_spec_witness :
    (country_ranking_data
        [⟨"World", 2020, 9⟩, ⟨"A", 2020, 2⟩, ⟨"B", 2020, 5⟩] 2020).Perm
      ([⟨"World", 2020, 9⟩, ⟨"A", 2020, 2⟩, ⟨"B", 2020, 5⟩].filter (ranking_pred 2020)) :=
  (country_ranking_data_spec [⟨"World", 2020, 9⟩, ⟨"A", 2020, 2⟩, ⟨"B", 2020, 5⟩] 2020).2.2.2
    (by decide)

/-- Claim C9: the ranking is independent of the entity selection — the two
branches of the source compute the same `RankingSnapshot`. -/
theorem country_ranking_branch_independent (data : List Row) (selA selB : String)
    (ey : Int) :
    country_ranking_branch data selA ey = country_ranking_branch data selB ey
    ∧ country_ranking_branch data selA ey = country_ranking_data data ey := by
  have h : ∀ s : String, country_ranking_branch data s ey = country_ranking_data data ey := by
    intro s
    unfold country_ranking_branch country_ranking_data
    split <;> rfl
  exact ⟨(h selA).trans (h selB).symm, h selA⟩

/-- The ascending-by-year ordering on rows. -/
def yearLe (a b : Row) : Prop := a.year ≤ b.year

instance : DecidableRel yearLe := fun a b => inferInstanceAs (Decidable (a.year ≤ b.year))

/-- Counterexample to claim C3: `filtered_data` only filters and applies
no sort, so on a dataset whose rows are not year-ordered the output is in
source order and is not ascending by year. -/
theorem filtered_data_unsorted_counterexample :
    ¬ (filtered_data [⟨"E", 2001, 1⟩, ⟨"E", 2000, 2⟩] "E" 2000 2001).Sorted yearLe := by
  intro h
  have heq : filtered_data [⟨"E", 2001, 1⟩, ⟨"E", 2000, 2⟩] "E" 2000 2001
      = [⟨"E", 2001, 1⟩, ⟨"E", 2000, 2⟩] := by decide
  rw [heq] at h
  have h1 := List.rel_of_sorted_cons h ⟨"E", 2000, 2⟩ (by simp)
  simp only [yearLe] at h1
  omega

/-- Claim C3 amended: `filtered_data` applies no explicit sort and keeps
dataset order, so its output is ascending by year exactly when the source
rows of the matched entity are already year-ordered (the spec's stated
property of the source data). -/
theorem filtered_data_sorted_of_entity_sorted (data : List Row) (sel : String)
    (sy ey : Int)
    (h : (data.filter (fun r =>
        r.country == (if sel == "Global" then "World" else sel))).Sorted yearLe) :
    (filtered_data data sel sy ey).Sorted yearLe := by
  have hsub : List.Sublist (filtered_data data sel sy ey)
      (data.filter (fun r =>
        r.country == (if sel == "Global" then "World" else sel))) := by
    unfold filtered_data
    by_cases hc : (sel == "Global") = true
    · rw [if_pos hc, if_pos hc]
      refine List.monotone_filter_right data ?_
      intro a ha
      simp only [Bool.and_eq_true] at ha
      exact ha.1.1
    · rw [if_neg hc, if_neg hc]
      refine List.monotone_filter_right data ?_
      intro a ha
      simp only [Bool.and_eq_true] at ha
      exact ha.1.1
  exact List.Pairwise.sublist hsub h

/-- Witness for the amended claim C3 at a concrete year-ordered dataset. -/
theorem filtered_data_sorted_of_entity_sorted_witness :
    (filtered_data [⟨"World", 2000, 1⟩, ⟨"World", 2001, 3⟩] "Global" 2000 2001).Sorted yearLe := by
  exact filtered_data_sorted_of_entity_sorted
    [⟨"World", 2000, 1⟩, ⟨"World", 2001, 3⟩] "Global" 2000 2001 (by decide)

/-- The scalar summary bundle of section 1 of the dashboard (lines
123-126): total emissions, mean annual emissions, year of peak emissions
and peak value. -/
structure SummaryMetrics where
  total : ℚ
  mean : ℚ
  peakYear : Int
  peakValue : ℚ
deriving DecidableEq, Repr

/-- The row found by `filtered_data.loc[filtered_data.co2.idxmax()]`
(line 125): pandas `idxmax` returns the index of the first occurrence of
the maximal value, so scanning from the left a later row replaces the
current maximum only when its co2 is strictly larger. -/
def idxmaxRow : List Row → Option Row
  | [] => none
  | r :: rest =>
    match idxmaxRow rest with
    | none => some r
    | some m => if m.co2 > r.co2 then some m else some r

/-- The key-metric computation of lines 120-150: on an empty slice the
dashboard shows the "No data available" placeholder (`none` here); on a
non-empty slice it computes `total_co2_emitted` as the sum of co2,
`avg_annual_co2` as the pandas mean (sum divided by count), and the peak
year and value from the first row attaining the maximal co2. -/
def summarize (filtered : List Row) : Option SummaryMetrics :=
  match idxmaxRow filtered with
  | none => none
  | some m =>
    let total_co2_emitted := (filtered.map Row.co2).sum
    let avg_annual_co2 := total_co2_emitted / ((filtered.length : ℕ) : ℚ)
    some ⟨total_co2_emitted, avg_annual_co2, m.year, m.co2⟩

/-- The percent-change computation of lines 160-173: only rendered when
the filtered slice has at least two rows; `iloc[0]` and `iloc[-1]` give
the first and last rows, and a zero starting emission is guarded to a
literal 0 instead of dividing. -/
def change_percent : List Row → Option ℚ
  | [] => none
  | [_] => none
  | r :: s :: rest =>
    let start_emission := r.co2
    let end_emission := ((s :: rest).getLast (List.cons_ne_nil s rest)).co2
    some (if start_emission ≠ 0 then
      (end_emission - start_emission) / start_emission * 100 else 0)

theorem idxmaxRow_eq_none_iff : ∀ l : List Row, idxmaxRow l = none ↔ l = []
  | [] => by simp [idxmaxRow]
  | r :: rest => by
    cases h : idxmaxRow rest with
    | none => simp [idxmaxRow, h]
    | some m =>
      simp only [idxmaxRow, h]
      constructor
      · intro hfalse
        by_cases hgt : m.co2 > r.co2 <;> simp [hgt] at hfalse
      · intro hfalse
        exact absurd hfalse (List.cons_ne_nil r rest)

/-- `idxmaxRow` splits the list around the first row attaining the
maximum: everything before it is strictly smaller, everything after it is
at most the maximum. -/
theorem idxmaxRow_split : ∀ (l : List Row) (m : Row), idxmaxRow l = some m →
    ∃ lpre lpost, l = lpre ++ m :: lpost
      ∧ (∀ r ∈ lpre, r.co2 < m.co2) ∧ (∀ r ∈ lpost, r.co2 ≤ m.co2)
  | [], m => by simp [idxmaxRow]
  | r :: rest, m => by
    intro h
    cases hrest : idxmaxRow rest with
    | none =>
      simp only [idxmaxRow, hrest] at h
      have hr : rest = [] := (idxmaxRow_eq_none_iff rest).mp hrest
      refine ⟨[], [], ?_, by simp, by simp [hr]⟩
      simp only [Option.some.injEq] at h
      simp [hr, h]
    | some m0 =>
      simp only [idxmaxRow, hrest] at h
      obtain ⟨p, q, heq, hpre, hpost⟩ := idxmaxRow_split rest m0 hrest
      by_cases hgt : m0.co2 > r.co2
      · rw [if_pos hgt] at h
        simp only [Option.some.injEq] at h
        subst h
        refine ⟨r :: p, q, by simp [heq], ?_, hpost⟩
        intro x hx
        rcases List.mem_cons.mp hx with hx | hx
        · exact hx ▸ hgt
        · exact hpre x hx
      · rw [if_neg hgt] at h
        simp only [Option.some.injEq] at h
        subst h
        refine ⟨[], rest, by simp, by simp, ?_⟩
        intro x hx
        have hx0 : x.co2 ≤ m0.co2 := by
          rw [heq] at hx
          rcases List.mem_append.mp hx with hx | hx
          · exact le_of_lt (hpre x hx)
          · rcases List.mem_cons.mp hx with hx | hx
            · exact hx ▸ le_refl _
            · exact hpost x hx
        exact hx0.trans (not_lt.mp hgt)

/-- Claim C4: on a slice with at least two rows, `change_percent` is the
guarded percent change from the first to the last row (a literal 0 when
the first co2 is 0, never a division error); on a slice with fewer than
two rows it is omitted entirely. -/
theorem change_percent_spec (slice : List Row) :
    (slice.length < 2 → change_percent slice = none)
    ∧ (2 ≤ slice.length → ∀ f l : Row, slice.head? = some f → slice.getLast? = some l →
        change_percent slice = some (if f.co2 = 0 then 0
          else (l.co2 - f.co2) / f.co2 * 100)) := by
  constructor
  · intro hlt
    match slice with
    | [] => rfl
    | [_] => rfl
    | _ :: _ :: _ => exact absurd hlt (by simp)
  · intro h2 f l hf hl
    match slice with
    | [] => simp at hf
    | [_] => simp at h2
    | r :: s :: rest =>
      simp only [List.head?_cons, Option.some.injEq] at hf
      rw [List.getLast?_cons_cons,
        List.getLast?_eq_getLast (s :: rest) (List.cons_ne_nil s rest),
        Option.some.injEq] at hl
      simp only [change_percent, hf, hl]
      by_cases h0 : f.co2 = 0 <;> simp [h0]

/-- Witness for claim C4: a two-row slice yields the percent change and a
one-row slice yields no change metric. -/
theorem change_percent_spec_witness :
    change_percent [⟨"A", 2000, 2⟩, ⟨"A", 2001, 3⟩] = some 50
    ∧ change_percent [⟨"A", 2000, 2⟩] = none := by
  constructor
  · have h := (change_percent_spec [⟨"A", 2000, 2⟩, ⟨"A", 2001, 3⟩]).2 (by decide)
      ⟨"A", 2000, 2⟩ ⟨"A", 2001, 3⟩ (by decide) (by decide)
    rw [h]
    norm_num
  · exact (change_percent_spec [⟨"A", 2000, 2⟩]).1 (by decide)

/-- Claim C5: `summarize` yields the "no data" sentinel exactly on the
empty slice, and on a non-empty slice a numeric bundle whose total is the
sum of co2, whose mean is the total divided by the row count, and whose
peak year and value come from a row of maximal co2. -/
theorem summarize_spec (slice : List Row) :
    (summarize slice = none ↔ slice = [])
    ∧ (slice ≠ [] → ∃ s, summarize slice = some s
        ∧ s.total = (slice.map Row.co2).sum
        ∧ s.mean = s.total / ((slice.length : ℕ) : ℚ)
        ∧ ∃ r ∈ slice, s.peakYear = r.year ∧ s.peakValue = r.co2
            ∧ ∀ x ∈ slice, x.co2 ≤ r.co2) := by
  constructor
  · cases h : idxmaxRow slice with
    | none =>
      simp only [summarize, h]
      simpa using (idxmaxRow_eq_none_iff slice).mp h
    | some m =>
      simp only [summarize, h]
      constructor
      · intro hc
        exact Option.noConfusion hc
      · intro he
        rw [he] at h
        exact Option.noConfusion h
  · intro hne
    cases h : idxmaxRow slice with
    | none => exact absurd ((idxmaxRow_eq_none_iff slice).mp h) hne
    | some m =>
      obtain ⟨p, q, heq, hpre, hpost⟩ := idxmaxRow_split slice m h
      refine ⟨⟨(slice.map Row.co2).sum,
          (slice.map Row.co2).sum / ((slice.length : ℕ) : ℚ), m.year, m.co2⟩,
        by simp only [summarize, h], rfl, rfl, m, ?_, rfl, rfl, ?_⟩
      · rw [heq]
        exact List.mem_append_right p (List.mem_cons_self m q)
      · intro x hx
        rw [heq] at hx
        rcases List.mem_append.mp hx with hx | hx
        · exact le_of_lt (hpre x hx)
        · rcases List.mem_cons.mp hx with hx | hx
          · exact hx ▸ le_refl _
          · exact hpost x hx

/-- Witness for claim C5: a concrete two-row slice gets the numeric
bundle and the empty slice gets the sentinel. -/
theorem summarize_spec_witness :
    summarize ([] : List Row) = none
    ∧ summarize [⟨"A", 2000, 2⟩, ⟨"A", 2001, 4⟩] ≠ none := by
  refine ⟨(summarize_spec []).1.mpr rfl, ?_⟩
  obtain ⟨s, hs, -⟩ := (summarize_spec [⟨"A", 2000, 2⟩, ⟨"A", 2001, 4⟩]).2 (by decide)
  rw [hs]
  exact Option.noConfusion

/-- Claim C7: on a year-sorted slice, when several rows tie for the
maximal co2, the peak year reported by `summarize` is the earliest year
among the tied rows (pandas `idxmax` keeps the first occurrence). -/
theorem summarize_peak_tie (slice : List Row) (hs : slice.Sorted yearLe)
    (s : SummaryMetrics) (hsum : summarize slice = some s)
    (_htie : 2 ≤ (slice.filter (fun r => decide (r.co2 = s.peakValue))).length) :
    (∀ r ∈ slice, r.co2 = s.peakValue → s.peakYear ≤ r.year)
    ∧ ∃ r ∈ slice, r.co2 = s.peakValue ∧ r.year = s.peakYear := by
  cases h : idxmaxRow slice with
  | none =>
    rw [summarize, h] at hsum
    exact Option.noConfusion hsum
  | some m =>
    rw [summarize, h] at hsum
    simp only [Option.some.injEq] at hsum
    have hpy : s.peakYear = m.year := by rw [← hsum]
    have hpv : s.peakValue = m.co2 := by rw [← hsum]
    obtain ⟨p, q, heq, hpre, hpost⟩ := idxmaxRow_split slice m h
    constructor
    · intro r hr hco2
      rw [hpv] at hco2
      rw [hpy]
      rw [heq] at hr hs
      rcases List.mem_append.mp hr with hr | hr
      · exact absurd (hco2 ▸ hpre r hr) (lt_irrefl _)
      · rcases List.mem_cons.mp hr with hr | hr
        · rw [hr]
        · have hq := (List.pairwise_append.mp hs).2.1
          exact List.rel_of_sorted_cons hq r hr
    · refine ⟨m, ?_, hpv.symm, hpy.symm⟩
      rw [heq]
      exact List.mem_append_right p (List.mem_cons_self m q)

/-- Witness for claim C7: with two rows tied at the maximum, the peak
year is the first (earliest) one. -/
theorem summarize_peak_tie_witness :
    (⟨10, 5, 2000, 5⟩ : SummaryMetrics).peakYear ≤ (⟨"A", 2001, 5⟩ : Row).year := by
  have h := summarize_peak_tie [⟨"A", 2000, 5⟩, ⟨"A", 2001, 5⟩] (by decide)
    ⟨10, 5, 2000, 5⟩ (by norm_num [summarize, idxmaxRow]) (by norm_num [List.filter])
  exact h.1 ⟨"A", 2001, 5⟩ (by simp) (by norm_num)

/-- Claim C8: when a single-year selection matches exactly one row, the
summary of the filtered slice has total and mean both equal to that row's
co2 and no percent change is produced. -/
theorem single_year_round_trip (data : List Row) (sel : String) (y : Int) (r : Row)
    (h : filtered_data data sel y y = [r]) :
    (∃ s, summarize (filtered_data data sel y y) = some s
      ∧ s.total = r.co2 ∧ s.mean = r.co2)
    ∧ change_percent (filtered_data data sel y y) = none := by
  rw [h]
  refine ⟨⟨⟨r.co2 + 0, (r.co2 + 0) / ((1 : ℕ) : ℚ), r.year, r.co2⟩, rfl, by simp, by simp⟩, rfl⟩

/-- Witness for claim C8 at a concrete one-row dataset. -/
theorem single_year_round_trip_witness :
    change_percent (filtered_data [⟨"X", 1999, 7⟩] "X" 1999 1999) = none :=
  (single_year_round_trip [⟨"X", 1999, 7⟩] "X" 1999 ⟨"X", 1999, 7⟩ (by decide)).2

/-- One raw CSV row as produced by `pd.read_csv` before cleaning: the
`year` cell may fail integer coercion (`none`) and the `co2` cell may be
missing (`none`, pandas NaN). -/
structure RawRow where
  country : String
  year_raw : Option Int
  co2_raw : Option ℚ
deriving DecidableEq, Repr

/-- The table returned by `pd.read_csv`: whether the required `year` and
`co2` columns are present, and the raw rows. -/
structure RawFrame where
  hasYear : Bool
  hasCo2 : Bool
  rows : List RawRow
deriving DecidableEq, Repr

/-- The body of the try block of `load_data` (lines 23-35): accessing a
missing column raises `KeyError`; `astype(int)` raises if any row's year
is not coercible; `fillna(0)` replaces a missing co2 by 0 and cannot
fail. -/
def try_load (df : RawFrame) : Except String (List Row) :=
  if !df.hasYear then Except.error "KeyError: year"
  else do
    let coerced ← df.rows.mapM (fun r =>
      match r.year_raw with
      | none => Except.error "ValueError: invalid literal for int"
      | some y => Except.ok (r, y))
    if !df.hasCo2 then Except.error "KeyError: co2"
    else Except.ok (coerced.map (fun p => ⟨p.1.country, p.2, p.1.co2_raw.getD 0⟩))

/-- The `load_data` function of lines 18-38: the fetch outcome (network
and CSV decoding) feeds the try block, and the catch-all
`except Exception` turns any failure whatsoever into an empty
`DataFrame`. -/
def load_data (fetch : Except String RawFrame) : List Row :=
  match fetch.bind try_load with
  | Except.ok df => df
  | Except.error _ => []

/-- Claim C10: `load_data` is total over all fetch and parse outcomes —
every failure raised inside it, including year-coercion failures and
missing required columns, is caught and converted to the empty dataset,
and a successful parse returns its rows; no exception reaches the
caller. -/
theorem load_data_total (fetch : Except String RawFrame) :
    (∀ e, fetch = Except.error e → load_data fetch = [])
    ∧ (∀ f e, fetch = Except.ok f → try_load f = Except.error e → load_data fetch = [])
    ∧ (∀ f rows, fetch = Except.ok f → try_load f = Except.ok rows → load_data fetch = rows) := by
  refine ⟨?_, ?_, ?_⟩
  · intro e he
    subst he
    rfl
  · intro f e hf ht
    subst hf
    simp [load_data, Except.bind, ht]
  · intro f rows hf ht
    subst hf
    simp [load_data, Except.bind, ht]

/-- Witness for claim C10: a transport failure and a successful frame
with a missing co2 value. -/
theorem load_data_total_witness :
    load_data (Except.error "network unreachable") = []
    ∧ load_data (Except.ok ⟨true, true, [⟨"A", some 2000, none⟩]⟩) = [⟨"A", 2000, 0⟩] := by
  refine ⟨(load_data_total (Except.error "network unreachable")).1 "network unreachable" rfl,
    (load_data_total (Except.ok ⟨true, true, [⟨"A", some 2000, none⟩]⟩)).2.2
      ⟨true, true, [⟨"A", some 2000, none⟩]⟩ [⟨"A", 2000, 0⟩] rfl rfl⟩

/-- Counterexample to claim C6: a frame whose single row has a
non-coercible year makes the try block raise, but `load_data` catches the
exception and returns the empty dataset — the same degrade-to-empty
outcome as a transport failure; the parse failure does not propagate. -/
theorem load_data_no_propagation_counterexample :
    try_load ⟨true, true, [⟨"A", none, some 1⟩]⟩
      = Except.error "ValueError: invalid literal for int"
    ∧ load_data (Except.ok ⟨true, true, [⟨"A", none, some 1⟩]⟩) = []
    ∧ load_data (Except.error "network unreachable")
      = load_data (Except.ok ⟨true, true, [⟨"A", none, some 1⟩]⟩) :=
  ⟨rfl, rfl, rfl⟩

/-- Claim C6 amended: when a row's year cannot be coerced or a required
column is missing, the catch-all handler converts the failure into an
empty dataset — the same degrade-to-empty policy as transport failures —
rather than propagating it. -/
theorem load_data_degrades_all_failures (f : RawFrame) (e : String)
    (h : try_load f = Except.error e) :
    load_data (Except.ok f) = [] := by
  simp [load_data, Except.bind, h]

/-- Witness for the amended claim C6 at a frame missing the `year`
column. -/
theorem load_data_degrades_all_failures_witness :
    load_data (Except.ok ⟨false, true, []⟩) = [] :=
  load_data_degrades_all_failures ⟨false, true, []⟩ "KeyError: year" rfl
